import Mathlib

/-!
Shallow embedding of `get_movie_data.ipynb` (flixable_ml_dsi).

The notebook defines three functions and one orchestration cell:

* `get_flixable_movie_urls(params)` — fetches a flixable list page, selects
  all elements matching the `.title` selector and builds a Python dict
  mapping each element's visible text to `FLIXABLE_REQUEST_URL + href`.
* `get_extra_info(title, year)` — queries the OMDB API; returns the decoded
  JSON dict when `response.ok` holds and the payload has no `"Error"` key,
  and the empty dict otherwise.
* `get_info(flixable_urls)` — for each url fetches the detail page, extracts
  title / year / mpaa_rating / added_to_netflix via `soup.find`, catches only
  `AttributeError`, merges the detail fields into the OMDB payload and
  collects one record per url into a DataFrame (here: a list of records).
* the scrape cell — loops `page` over `range(1, N_PAGES + 1)`, mutating the
  `flixable_params` dict in place, extends a flat url list with each page's
  dict values, and finally runs `get_info` over the accumulated list.

HTTP transport and HTML parsing are abstracted into environments: a detail
fetch yields a `DetailResponse` (its `ok` flag together with the texts of the
four `soup.find` lookups, `none` when the selector matched no element), the
OMDB call yields an `OmdbResponse` (`ok` flag plus decoded JSON payload), and
a list page yields the list of elements matched by the `.title` selector.
Python dicts are modelled as insertion-ordered association lists where
assignment to an existing key updates the entry in place.
Python `str.split(':')` and `str.strip()` are modelled by executable
character-list recursions (`pySplit`, `pyStrip`).
-/

namespace Flixable

/-- A Python dict with string keys and values, as an insertion-ordered
association list.  `response.json()`, OMDB payloads and the per-url info
records are all of this shape. -/
abbrev Dict := List (String × String)

/-- `d[k] = v` on a Python dict: if the key is present its entry is updated
in place (keeping its position), otherwise `(k, v)` is appended at the end. -/
def dictInsert (d : Dict) (k v : String) : Dict :=
  if d.any (fun p => p.1 == k) then
    d.map (fun p => if p.1 == k then (k, v) else p)
  else
    d ++ [(k, v)]

/-- Python `str.split(sep)` for a one-character separator, on the character
list: every occurrence of the separator splits, empty segments are kept, and
the empty input yields one empty segment. -/
def splitCharAux (sep : Char) : List Char → List (List Char)
  | [] => [[]]
  | c :: rest =>
    match splitCharAux sep rest with
    | [] => [[]]
    | g :: gs => if c = sep then [] :: g :: gs else (c :: g) :: gs

/-- Python `s.split(sep)` for a one-character separator. -/
def pySplit (sep : Char) (s : String) : List String :=
  (splitCharAux sep s.toList).map (fun cs => String.mk cs)

/-- Python `s.strip()`: drop whitespace from both ends. -/
def pyStrip (s : String) : String :=
  String.mk (((s.toList.dropWhile Char.isWhitespace).reverse.dropWhile
    Char.isWhitespace).reverse)

/-- `FLIXABLE_REQUEST_URL` from the constants cell. -/
def FLIXABLE_REQUEST_URL : String := "http://www.flixable.com"

/-- `N_PAGES` from the constants cell. -/
def N_PAGES : Nat := 30

/-- An element matched by the `MOVIE_TITLE_SELECTOR` (`.title`) on a list
page: its visible text (`movie_title.text`) and its `href` attribute. -/
structure TitleElem where
  text : String
  href : String

/-- `get_flixable_movie_urls`.  The HTTP fetch and the
`BeautifulSoup(...).select('.title')` step are abstracted away: the argument
is the list of matched elements, in document order.  The body is the loop
that builds `movie_page_urls`: for each element,
`movie_page_urls[movie_title.text] = FLIXABLE_REQUEST_URL + movie_title['href']`. -/
def get_flixable_movie_urls (movie_titles : List TitleElem) : Dict :=
  movie_titles.foldl
    (fun movie_page_urls movie_title =>
      dictInsert movie_page_urls movie_title.text
        (FLIXABLE_REQUEST_URL ++ movie_title.href))
    []

/-- The OMDB API response for one `requests.get(OMDB_REQUEST_URL, params)`
call: `response.ok` and the decoded JSON payload `response.json()`. -/
structure OmdbResponse where
  ok : Bool
  json : Dict

/-- `get_extra_info(title, year)`.  `omdb` abstracts the HTTP call: it maps
the `t` / `y` request parameters to the response.  The body returns
`response.json()` when `response.ok and 'Error' not in response.json().keys()`
holds, and the empty dict otherwise. -/
def get_extra_info (omdb : String → String → OmdbResponse)
    (title year : String) : Dict :=
  let response := omdb title year
  if response.ok && !(response.json.any (fun p => p.1 == "Error")) then
    response.json
  else
    []

/-- A detail-page response for one `requests.get(url)` call in `get_info`:
`response.ok`, plus the result of each of the four `soup.find` lookups on the
page — `none` when the selector matched nothing (so that `.text` would raise
`AttributeError`), `some t` when it matched an element with text `t`. -/
structure DetailResponse where
  ok : Bool
  titleElem : Option String
  yearElem : Option String
  mpaaElem : Option String
  addedElem : Option String

/-- The external world `get_info` interacts with: the detail-page fetch for
each url and the OMDB API keyed by the `t` / `y` parameters. -/
structure Env where
  detail : String → DetailResponse
  omdb : String → String → OmdbResponse

/-- The exceptions that can escape `get_info`: the `IndexError` raised by
`added_to_netflix.split(':')[1]` when the block holds no colon (the handler
catches only `AttributeError`). -/
inductive PyError where
  | indexError
deriving DecidableEq, Repr

/-- `added_to_netflix.split(':')[1].strip()` applied to the text of the
matched `div.mb-4` block: `none` models the uncaught `IndexError` when the
split yields fewer than two segments. -/
def extract_added (s : String) : Option String :=
  ((pySplit ':' s)[1]?).map pyStrip

/-- The body of `get_info`'s loop for one url.  Order as in the source:
fetch; on `not response.ok` append the default record and continue; extract
the four fields (any `soup.find` returning `None` raises `AttributeError`,
which is caught and yields the default record); split the added-to-netflix
text (an `IndexError` here is NOT caught and aborts the run); query OMDB;
then overwrite `Title`, `Year`, `mpaa_rating`, `added_to_netflix`,
`flixable_url` in the OMDB dict. -/
def processUrl (env : Env) (url : String) : Except PyError Dict :=
  let default_info_dict : Dict := [("flixable_url", url)]
  let response := env.detail url
  if !response.ok then
    .ok default_info_dict
  else
    match response.titleElem, response.yearElem,
        response.mpaaElem, response.addedElem with
    | some t, some y, some m, some a =>
      let title := pyStrip t
      let year := y
      let mpaa_rating := m
      match extract_added a with
      | none => .error .indexError
      | some added_to_netflix =>
        let info_dict := get_extra_info env.omdb title year
        let info_dict := dictInsert info_dict "Title" title
        let info_dict := dictInsert info_dict "Year" year
        let info_dict := dictInsert info_dict "mpaa_rating" mpaa_rating
        let info_dict := dictInsert info_dict "added_to_netflix" added_to_netflix
        let info_dict := dictInsert info_dict "flixable_url" url
        .ok info_dict
    | _, _, _, _ => .ok default_info_dict

/-- `get_info(flixable_urls)`: one record per url, in input order; an
uncaught exception while processing a url aborts the whole call. -/
def get_info (env : Env) : List String → Except PyError (List Dict)
  | [] => .ok []
  | url :: rest =>
    match processUrl env url with
    | .error e => .error e
    | .ok info_dict =>
      match get_info env rest with
      | .error e => .error e
      | .ok info_dicts => .ok (info_dict :: info_dicts)

/-- The `flixable_params` dict of the scrape cell.  Its keys are fixed; only
`page` is reassigned inside the loop, in place. -/
structure FlixableParams where
  min_rating : Nat
  min_year : Nat
  max_year : Nat
  order : String
  page : Nat
deriving DecidableEq, Repr

/-- The initial `flixable_params` value of the scrape cell. -/
def initParams : FlixableParams :=
  { min_rating := 0, min_year := 0, max_year := 3000, order := "date", page := 1 }

/-- What the scrape loop leaves behind: the sequence of parameter dicts the
harvester was called with (one per loop iteration, in call order) and the
accumulated `movie_urls` list. -/
structure ScrapeResult where
  calls : List FlixableParams
  movie_urls : List String
deriving DecidableEq, Repr

/-- One iteration of the scrape loop: set `flixable_params['page'] = page`,
call `get_flixable_movie_urls(flixable_params)`, extend `movie_urls` with the
dict's values. -/
def scrapeStep (site : FlixableParams → List TitleElem)
    (st : FlixableParams × ScrapeResult) (page : Nat) :
    FlixableParams × ScrapeResult :=
  let ps : FlixableParams := { st.1 with page := page }
  let movie_url_dict := get_flixable_movie_urls (site ps)
  (ps, ⟨st.2.calls ++ [ps], st.2.movie_urls ++ movie_url_dict.map Prod.snd⟩)

/-- The harvest phase of the scrape cell: `for page in range(1, N_PAGES + 1)`
over the in-place-mutated `flixable_params`.  `site` abstracts the list-page
fetch and the `.title` selection for given request parameters. -/
def scrape (site : FlixableParams → List TitleElem) : ScrapeResult :=
  ((List.range' 1 N_PAGES).foldl (scrapeStep site) (initParams, ⟨[], []⟩)).2

/-- The whole scrape cell: harvest all pages, then enrich the accumulated
url list with `get_info` (the rows of the csv that is written out). -/
def scrapeCell (site : FlixableParams → List TitleElem) (env : Env) :
    Except PyError (List Dict) :=
  get_info env (scrape site).movie_urls

/-- Modelled from the spec (the claimed extraction rule for
`added_to_netflix`, which `get_info` is compared against): split the text
block on the FIRST colon and take the ENTIRE trailing segment, trimmed;
no colon means no value. -/
def spec_added_after_first_colon (s : String) : Option String :=
  match pySplit ':' s with
  | [] => none
  | [_] => none
  | _ :: rest => some (pyStrip (String.intercalate ":" rest))

/-! ## Helper lemmas about the dict model -/

theorem any_key_append (d l : Dict) (k : String) :
    (d ++ l).any (fun p => p.1 == k) =
      (d.any (fun p => p.1 == k) || l.any (fun p => p.1 == k)) :=
  List.any_append

theorem lookup_eq_none_of_not_any (d : Dict) (k : String)
    (h : d.any (fun p => p.1 == k) = false) : d.lookup k = none := by
  induction d with
  | nil => rfl
  | cons p t ih =>
    simp only [List.any_cons, Bool.or_eq_false_iff] at h
    have hk : (k == p.1) = false := by
      have h1 := h.1
      simp only [beq_eq_false_iff_ne, ne_eq] at h1 ⊢
      exact fun e => h1 e.symm
    simp [List.lookup, hk, ih h.2]

theorem lookup_append (d l : Dict) (k : String) :
    (d ++ l).lookup k =
      match d.lookup k with
      | some v => some v
      | none => l.lookup k := by
  induction d with
  | nil => rfl
  | cons p t ih =>
    cases hk : (k == p.1) with
    | true => simp [List.cons_append, List.lookup, hk]
    | false => simp [List.cons_append, List.lookup, hk, ih]

theorem lookup_cons_eq (t : Dict) (k : String) (p : String × String) :
    List.lookup k (p :: t) = if k == p.1 then some p.2 else List.lookup k t := by
  rcases p with ⟨a, b⟩
  rw [List.lookup_cons]
  cases hk : k == a <;> simp [hk]

theorem lookup_replace_self (d : Dict) (k v : String)
    (h : d.any (fun p => p.1 == k) = true) :
    (d.map (fun p => if p.1 == k then (k, v) else p)).lookup k = some v := by
  induction d with
  | nil => simp at h
  | cons p t ih =>
    rw [List.map_cons]
    by_cases hpk : p.1 = k
    · have h1 : (p.1 == k) = true := beq_iff_eq.mpr hpk
      rw [if_pos h1, lookup_cons_eq]
      simp
    · have h1 : ¬((p.1 == k) = true) := fun hh => hpk (beq_iff_eq.mp hh)
      have h2 : ¬((k == p.1) = true) := fun hh => hpk (beq_iff_eq.mp hh).symm
      rw [if_neg h1, lookup_cons_eq, if_neg h2]
      apply ih
      simp only [List.any_cons, Bool.or_eq_true] at h
      rcases h with h | h
      · exact absurd h h1
      · exact h

theorem lookup_dictInsert_self (d : Dict) (k v : String) :
    (dictInsert d k v).lookup k = some v := by
  unfold dictInsert
  by_cases h : d.any (fun p => p.1 == k) = true
  · simp only [h, if_true]
    exact lookup_replace_self d k v h
  · simp only [Bool.not_eq_true] at h
    rw [if_neg (by simp [h]), lookup_append, lookup_eq_none_of_not_any d k h]
    simp [List.lookup]

theorem lookup_map_replace_other (d : Dict) (k v k' : String) (hk : k' ≠ k) :
    (d.map (fun p => if p.1 == k then (k, v) else p)).lookup k' = d.lookup k' := by
  induction d with
  | nil => rfl
  | cons p t ih =>
    rw [List.map_cons]
    by_cases hpk : p.1 = k
    · have h1 : (p.1 == k) = true := beq_iff_eq.mpr hpk
      have h2 : ¬((k' == k) = true) := fun hh => hk (beq_iff_eq.mp hh)
      have h3 : ¬((k' == p.1) = true) := fun hh => hk (hpk ▸ beq_iff_eq.mp hh)
      rw [if_pos h1, lookup_cons_eq, lookup_cons_eq, if_neg h2, if_neg h3]
      exact ih
    · have h1 : ¬((p.1 == k) = true) := fun hh => hpk (beq_iff_eq.mp hh)
      rw [if_neg h1, lookup_cons_eq, lookup_cons_eq]
      by_cases hp' : (k' == p.1) = true
      · rw [if_pos hp', if_pos hp']
      · rw [if_neg hp', if_neg hp']
        exact ih

theorem lookup_dictInsert_other (d : Dict) (k v k' : String) (hk : k' ≠ k) :
    (dictInsert d k v).lookup k' = d.lookup k' := by
  unfold dictInsert
  by_cases h : d.any (fun p => p.1 == k) = true
  · simp only [h, if_true]
    exact lookup_map_replace_other d k v k' hk
  · simp only [Bool.not_eq_true] at h
    rw [if_neg (by simp [h]), lookup_append]
    cases hd : d.lookup k' with
    | some v' => rfl
    | none =>
      have hkk : (k' == k) = false := beq_eq_false_iff_ne.mpr hk
      simp [List.lookup, hkk]

/-! ## Case analysis of the per-url body of `get_info` -/

/-- The record built on the fully successful path of `get_info`'s loop body:
the OMDB payload with the five detail-page assignments applied in source
order. -/
def successRecord (env : Env) (url t y m added : String) : Dict :=
  dictInsert (dictInsert (dictInsert (dictInsert (dictInsert
    (get_extra_info env.omdb (pyStrip t) y)
    "Title" (pyStrip t)) "Year" y) "mpaa_rating" m)
    "added_to_netflix" added) "flixable_url" url

theorem processUrl_cases (env : Env) (url : String) :
    ((env.detail url).ok = false
      ∧ processUrl env url = .ok [("flixable_url", url)])
    ∨ ((env.detail url).ok = true
        ∧ ((env.detail url).titleElem = none ∨ (env.detail url).yearElem = none
            ∨ (env.detail url).mpaaElem = none ∨ (env.detail url).addedElem = none)
        ∧ processUrl env url = .ok [("flixable_url", url)])
    ∨ (∃ t y m a, (env.detail url).ok = true
        ∧ (env.detail url).titleElem = some t
        ∧ (env.detail url).yearElem = some y
        ∧ (env.detail url).mpaaElem = some m
        ∧ (env.detail url).addedElem = some a
        ∧ ((extract_added a = none ∧ processUrl env url = .error .indexError)
           ∨ (∃ added, extract_added a = some added
              ∧ processUrl env url = .ok (successRecord env url t y m added)))) := by
  cases hok : (env.detail url).ok with
  | false => exact Or.inl ⟨rfl, by simp [processUrl, hok]⟩
  | true =>
    cases ht : (env.detail url).titleElem with
    | none =>
      exact Or.inr (Or.inl ⟨rfl, Or.inl rfl, by simp [processUrl, hok, ht]⟩)
    | some t =>
      cases hy : (env.detail url).yearElem with
      | none =>
        exact Or.inr (Or.inl ⟨rfl, Or.inr (Or.inl rfl),
          by simp [processUrl, hok, ht, hy]⟩)
      | some y =>
        cases hm : (env.detail url).mpaaElem with
        | none =>
          exact Or.inr (Or.inl ⟨rfl, Or.inr (Or.inr (Or.inl rfl)),
            by simp [processUrl, hok, ht, hy, hm]⟩)
        | some m =>
          cases ha : (env.detail url).addedElem with
          | none =>
            exact Or.inr (Or.inl ⟨rfl, Or.inr (Or.inr (Or.inr rfl)),
              by simp [processUrl, hok, ht, hy, hm, ha]⟩)
          | some a =>
            refine Or.inr (Or.inr ⟨t, y, m, a, rfl, rfl, rfl, rfl, rfl, ?_⟩)
            cases hadd : extract_added a with
            | none =>
              exact Or.inl ⟨rfl,
                by simp [processUrl, hok, ht, hy, hm, ha, hadd]⟩
            | some added =>
              exact Or.inr ⟨added, rfl,
                by simp [processUrl, successRecord, hok, ht, hy, hm, ha, hadd]⟩

theorem processUrl_lookup_flixable (env : Env) (url : String) (d : Dict)
    (h : processUrl env url = Except.ok d) :
    d.lookup "flixable_url" = some url := by
  rcases processUrl_cases env url with ⟨-, hp⟩ | ⟨-, -, hp⟩ |
      ⟨t, y, m, a, -, -, -, -, -, ⟨-, hp⟩ | ⟨added, -, hp⟩⟩
  · rw [hp] at h
    cases h
    simp [lookup_cons_eq]
  · rw [hp] at h
    cases h
    simp [lookup_cons_eq]
  · rw [hp] at h
    cases h
  · rw [hp] at h
    cases h
    exact lookup_dictInsert_self _ _ _

theorem any_key_eq_false_iff_lookup_none (d : Dict) (k : String) :
    d.any (fun p => p.1 == k) = false ↔ d.lookup k = none := by
  induction d with
  | nil => simp [List.lookup]
  | cons p t ih =>
    rw [List.any_cons, lookup_cons_eq]
    by_cases hpk : p.1 = k
    · have h1 : (p.1 == k) = true := beq_iff_eq.mpr hpk
      have h2 : (k == p.1) = true := beq_iff_eq.mpr hpk.symm
      simp [h1, h2]
    · have h1 : (p.1 == k) = false := beq_eq_false_iff_ne.mpr hpk
      have h2 : (k == p.1) = false :=
        beq_eq_false_iff_ne.mpr (fun e => hpk e.symm)
      simp [h1, h2, ih]

theorem get_info_ok_spec (env : Env) (urls : List String)
    (h : ∀ url ∈ urls, ∃ d, processUrl env url = Except.ok d) :
    ∃ recs, get_info env urls = Except.ok recs ∧
      List.Forall₂ (fun rec url => List.lookup "flixable_url" rec = some url)
        recs urls := by
  induction urls with
  | nil => exact ⟨[], rfl, List.Forall₂.nil⟩
  | cons url rest ih =>
    obtain ⟨d, hd⟩ := h url (List.mem_cons_self url rest)
    obtain ⟨recs, hrecs, hf⟩ := ih (fun u hu => h u (List.mem_cons_of_mem url hu))
    refine ⟨d :: recs, ?_,
      List.Forall₂.cons (processUrl_lookup_flixable env url d hd) hf⟩
    simp [get_info, hd, hrecs]

theorem splitCharAux_no_sep (sep : Char) (l : List Char) (h : sep ∉ l) :
    splitCharAux sep l = [l] := by
  induction l with
  | nil => rfl
  | cons c rest ih =>
    have hc : ¬c = sep := fun e => h (e ▸ List.mem_cons_self c rest)
    rw [splitCharAux, ih (fun hm => h (List.mem_cons_of_mem c hm))]
    simp [hc]

theorem extract_added_no_sep (a : String) (h : ':' ∉ a.toList) :
    extract_added a = none := by
  unfold extract_added pySplit
  rw [splitCharAux_no_sep ':' a.toList h]
  rfl

theorem foldl_dictInsert_fresh (movie_titles : List TitleElem) (d : Dict)
    (hdisj : ∀ e ∈ movie_titles, d.any (fun p => p.1 == e.text) = false)
    (h : (movie_titles.map (fun e => e.text)).Nodup) :
    movie_titles.foldl
        (fun acc e => dictInsert acc e.text (FLIXABLE_REQUEST_URL ++ e.href)) d
      = d ++ movie_titles.map
          (fun e => (e.text, FLIXABLE_REQUEST_URL ++ e.href)) := by
  induction movie_titles generalizing d with
  | nil => simp
  | cons e rest ih =>
    rw [List.map_cons, List.nodup_cons] at h
    rw [List.foldl_cons]
    have hde : d.any (fun p => p.1 == e.text) = false :=
      hdisj e (List.mem_cons_self e rest)
    have hins : dictInsert d e.text (FLIXABLE_REQUEST_URL ++ e.href)
        = d ++ [(e.text, FLIXABLE_REQUEST_URL ++ e.href)] := by
      unfold dictInsert
      rw [if_neg (by simp [hde])]
    rw [hins, ih]
    · simp
    · intro e' he'
      rw [List.any_append]
      have h1 := hdisj e' (List.mem_cons_of_mem e he')
      have hne : e.text ≠ e'.text := by
        intro hee
        exact h.1 (hee ▸ List.mem_map_of_mem (fun e => e.text) he')
      have h2 : (e.text == e'.text) = false := beq_eq_false_iff_ne.mpr hne
      simp [h1, h2]
    · exact h.2

theorem scrape_foldl (site : FlixableParams → List TitleElem)
    (pages : List Nat) (p0 : FlixableParams) (acc : ScrapeResult) :
    (pages.foldl (scrapeStep site) (p0, acc)).2 =
      ⟨acc.calls ++ pages.map (fun p => { p0 with page := p }),
       acc.movie_urls ++ pages.flatMap (fun p =>
         (get_flixable_movie_urls (site { p0 with page := p })).map Prod.snd)⟩ := by
  induction pages generalizing p0 acc with
  | nil => simp
  | cons p rest ih =>
    rw [List.foldl_cons, scrapeStep, ih]
    simp

/-- A concrete world for evaluating the development on sample inputs: the
url `"bad"` fails its fetch, `"redir"` returns a page on which the selectors
match nothing, `"nocolon"` has an added-to-netflix block without a colon,
`"merge"` carries the merge-precedence example of the spec, and every other
url succeeds; the OMDB lookup knows `("Y", "2000")` and reports
`Movie not found!` for everything else. -/
def sampleEnv : Env where
  detail := fun url =>
    if url = "bad" then ⟨false, none, none, none, none⟩
    else if url = "redir" then ⟨true, none, none, none, none⟩
    else if url = "nocolon" then
      ⟨true, some "T", some "2020", some "PG", some "Added to Netflix"⟩
    else if url = "merge" then
      ⟨true, some "Y", some "2000", some "PG", some "Added: May 5"⟩
    else ⟨true, some " T ", some "2020", some "PG",
      some "Added to Netflix: May 5, 2020"⟩
  omdb := fun t y =>
    if t = "Y" ∧ y = "2000" then
      ⟨true, [("Title", "X"), ("Year", "1999"), ("Genre", "Drama")]⟩
    else ⟨true, [("Response", "False"), ("Error", "Movie not found!")]⟩

/-! ## The claims -/

/-- C1: for every input url list, `get_info` returns one output record per
input url, in input order, and no record is dropped: when no url hits the
uncaught-exception path (the only way the loop can abort, cf. C9), the output
has exactly one record per input url, and the i-th record carries the i-th
url in `flixable_url` — failed urls included, since a failed fetch or a
selector miss still yields a record (`Forall₂` forces equal lengths and the
input ordering). -/
theorem claim_C1 (env : Env) (urls : List String)
    (h : ∀ url ∈ urls, ∃ d, processUrl env url = Except.ok d) :
    ∃ recs, get_info env urls = Except.ok recs ∧ recs.length = urls.length ∧
      List.Forall₂ (fun rec url => List.lookup "flixable_url" rec = some url)
        recs urls := by
  obtain ⟨recs, h1, h2⟩ := get_info_ok_spec env urls h
  exact ⟨recs, h1, h2.length_eq, h2⟩

theorem claim_C1_witness :
    ∃ recs, get_info sampleEnv ["ok", "bad", "redir"] = Except.ok recs ∧
      recs.length = (["ok", "bad", "redir"] : List String).length ∧
      List.Forall₂ (fun rec url => List.lookup "flixable_url" rec = some url)
        recs ["ok", "bad", "redir"] := by
  apply claim_C1
  intro url hu
  simp only [List.mem_cons, List.not_mem_nil, or_false] at hu
  rcases hu with rfl | rfl | rfl
  · exact ⟨_, rfl⟩
  · exact ⟨_, rfl⟩
  · exact ⟨_, rfl⟩

/-- C2: whenever the loop body of `get_info` produces a record for a url,
that record contains the field `flixable_url` and its value is exactly that
input url. -/
theorem claim_C2 (env : Env) (url : String) (d : Dict)
    (h : processUrl env url = Except.ok d) :
    d.lookup "flixable_url" = some url :=
  processUrl_lookup_flixable env url d h

theorem claim_C2_witness :
    ∃ d, processUrl sampleEnv "ok" = Except.ok d ∧
      d.lookup "flixable_url" = some "ok" :=
  ⟨_, rfl, claim_C2 sampleEnv "ok" _ rfl⟩

/-- C3: when the detail fetch is not ok, or it is ok but one of the four
`soup.find` selectors (title, year, mpaa rating, added-to-netflix) matches
nothing, the record for that url is exactly `{flixable_url: url}` — one
field — and `get_info` continues with the remaining urls. -/
theorem claim_C3 (env : Env) (url : String) (rest : List String)
    (h : (env.detail url).ok = false
      ∨ (env.detail url).titleElem = none
      ∨ (env.detail url).yearElem = none
      ∨ (env.detail url).mpaaElem = none
      ∨ (env.detail url).addedElem = none) :
    processUrl env url = Except.ok [("flixable_url", url)]
    ∧ get_info env (url :: rest) =
        (get_info env rest).map (fun recs => [("flixable_url", url)] :: recs) := by
  have hp : processUrl env url = Except.ok [("flixable_url", url)] := by
    rcases processUrl_cases env url with ⟨-, hp⟩ | ⟨-, -, hp⟩ |
        ⟨t, y, m, a, hok2, ht, hy, hm, ha, -⟩
    · exact hp
    · exact hp
    · rcases h with h | h | h | h | h
      · rw [h] at hok2; cases hok2
      · rw [h] at ht; cases ht
      · rw [h] at hy; cases hy
      · rw [h] at hm; cases hm
      · rw [h] at ha; cases ha
  refine ⟨hp, ?_⟩
  cases hrest : get_info env rest with
  | error e => simp [get_info, hp, hrest, Except.map]
  | ok recs => simp [get_info, hp, hrest, Except.map]

theorem claim_C3_witness :
    processUrl sampleEnv "bad" = Except.ok [("flixable_url", "bad")]
    ∧ get_info sampleEnv ["bad", "ok"] =
        (get_info sampleEnv ["ok"]).map
          (fun recs => [("flixable_url", "bad")] :: recs) :=
  claim_C3 sampleEnv "bad" ["ok"] (Or.inl rfl)

/-- C4: on a fully successful enrichment the record is the OMDB payload with
the detail-page fields written over it, so detail-page values win for every
same-named key (`Title`, `Year`, and also `mpaa_rating`, `added_to_netflix`,
`flixable_url`), while every other key keeps its OMDB value; the witness
instantiates the claim's concrete example (API `Title=X, Year=1999,
Genre=Drama`, detail `Title=Y, Year=2000` giving `Y / 2000 / Drama`). -/
theorem claim_C4 (env : Env) (url t y m a added : String)
    (hok : (env.detail url).ok = true)
    (ht : (env.detail url).titleElem = some t)
    (hy : (env.detail url).yearElem = some y)
    (hm : (env.detail url).mpaaElem = some m)
    (ha : (env.detail url).addedElem = some a)
    (hadd : extract_added a = some added) :
    processUrl env url = Except.ok (successRecord env url t y m added)
    ∧ (successRecord env url t y m added).lookup "Title" = some (pyStrip t)
    ∧ (successRecord env url t y m added).lookup "Year" = some y
    ∧ (successRecord env url t y m added).lookup "mpaa_rating" = some m
    ∧ (successRecord env url t y m added).lookup "added_to_netflix" = some added
    ∧ (successRecord env url t y m added).lookup "flixable_url" = some url
    ∧ ∀ k, k ≠ "Title" → k ≠ "Year" → k ≠ "mpaa_rating" →
        k ≠ "added_to_netflix" → k ≠ "flixable_url" →
        (successRecord env url t y m added).lookup k =
          (get_extra_info env.omdb (pyStrip t) y).lookup k := by
  refine ⟨?_, ?_, ?_, ?_, ?_, ?_, ?_⟩
  · simp [processUrl, successRecord, hok, ht, hy, hm, ha, hadd]
  · unfold successRecord
    rw [lookup_dictInsert_other _ _ _ _ (by decide),
      lookup_dictInsert_other _ _ _ _ (by decide),
      lookup_dictInsert_other _ _ _ _ (by decide),
      lookup_dictInsert_other _ _ _ _ (by decide)]
    exact lookup_dictInsert_self _ _ _
  · unfold successRecord
    rw [lookup_dictInsert_other _ _ _ _ (by decide),
      lookup_dictInsert_other _ _ _ _ (by decide),
      lookup_dictInsert_other _ _ _ _ (by decide)]
    exact lookup_dictInsert_self _ _ _
  · unfold successRecord
    rw [lookup_dictInsert_other _ _ _ _ (by decide),
      lookup_dictInsert_other _ _ _ _ (by decide)]
    exact lookup_dictInsert_self _ _ _
  · unfold successRecord
    rw [lookup_dictInsert_other _ _ _ _ (by decide)]
    exact lookup_dictInsert_self _ _ _
  · exact lookup_dictInsert_self _ _ _
  · intro k h1 h2 h3 h4 h5
    unfold successRecord
    rw [lookup_dictInsert_other _ _ _ _ h5, lookup_dictInsert_other _ _ _ _ h4,
      lookup_dictInsert_other _ _ _ _ h3, lookup_dictInsert_other _ _ _ _ h2,
      lookup_dictInsert_other _ _ _ _ h1]

theorem claim_C4_witness :
    processUrl sampleEnv "merge" =
      Except.ok (successRecord sampleEnv "merge" "Y" "2000" "PG" "May 5")
    ∧ (successRecord sampleEnv "merge" "Y" "2000" "PG" "May 5").lookup "Title"
        = some "Y"
    ∧ (successRecord sampleEnv "merge" "Y" "2000" "PG" "May 5").lookup "Year"
        = some "2000"
    ∧ (successRecord sampleEnv "merge" "Y" "2000" "PG" "May 5").lookup "Genre"
        = some "Drama" := by
  have h := claim_C4 sampleEnv "merge" "Y" "2000" "PG" "Added: May 5" "May 5"
    rfl rfl rfl rfl rfl rfl
  refine ⟨h.1, h.2.1, h.2.2.1, ?_⟩
  rw [h.2.2.2.2.2.2 "Genre" (by decide) (by decide) (by decide) (by decide)
    (by decide)]
  rfl

/-- C5: a metadata-API call succeeds exactly when the response is ok and the
decoded payload has no `"Error"` key, in which case the payload is returned;
a non-ok response, or a payload carrying an `"Error"` entry (such as
`{"Response": "False", "Error": "Movie not found!"}`), yields the empty
mapping — the function total-returns, it raises nothing. -/
theorem claim_C5 (omdb : String → String → OmdbResponse) (title year : String) :
    ((omdb title year).ok = true →
        (omdb title year).json.lookup "Error" = none →
        get_extra_info omdb title year = (omdb title year).json)
    ∧ ((omdb title year).ok = false → get_extra_info omdb title year = [])
    ∧ (∀ msg, (omdb title year).json.lookup "Error" = some msg →
        get_extra_info omdb title year = []) := by
  refine ⟨?_, ?_, ?_⟩
  · intro hok herr
    have hany : (omdb title year).json.any (fun p => p.1 == "Error") = false :=
      (any_key_eq_false_iff_lookup_none _ _).mpr herr
    simp [get_extra_info, hok, hany]
  · intro hok
    simp [get_extra_info, hok]
  · intro msg hmsg
    cases hany : (omdb title year).json.any (fun p => p.1 == "Error") with
    | false =>
      rw [(any_key_eq_false_iff_lookup_none _ _).mp hany] at hmsg
      cases hmsg
    | true => simp [get_extra_info, hany]

theorem claim_C5_witness :
    get_extra_info sampleEnv.omdb "Y" "2000" =
      [("Title", "X"), ("Year", "1999"), ("Genre", "Drama")]
    ∧ get_extra_info sampleEnv.omdb "T" "2020" = []
    ∧ get_extra_info (fun t y => ⟨false, [("Title", t), ("Year", y)]⟩)
        "A" "1999" = [] :=
  ⟨(claim_C5 sampleEnv.omdb "Y" "2000").1 rfl rfl,
   (claim_C5 sampleEnv.omdb "T" "2020").2.2 "Movie not found!" rfl,
   (claim_C5 (fun t y => ⟨false, [("Title", t), ("Year", y)]⟩) "A" "1999").2.1 rfl⟩

/-- C6 counterexample: the code does NOT take the entire trailing segment
after the first colon — `split(':')[1]` is the segment between the first and
the second colon.  On an added-to-netflix block whose value itself contains a
colon the two rules disagree: the code yields `"May 5, 2020 3"` where the
claimed rule yields `"May 5, 2020 3:45"`. -/
theorem claim_C6_counterexample :
    extract_added "Added to Netflix: May 5, 2020 3:45" = some "May 5, 2020 3"
    ∧ spec_added_after_first_colon "Added to Netflix: May 5, 2020 3:45"
        = some "May 5, 2020 3:45"
    ∧ extract_added "Added to Netflix: May 5, 2020 3:45"
        ≠ spec_added_after_first_colon "Added to Netflix: May 5, 2020 3:45" := by
  refine ⟨rfl, rfl, ?_⟩
  decide

/-- C6 amended: the extracted `added_to_netflix` value is the segment of the
colon-split between the first and second colon, trimmed; when the text block
splits into exactly two segments (label and value, the value holding no
further colon) this coincides with the claimed take-the-whole-trailing-
segment-after-the-first-colon rule. -/
theorem claim_C6_amended (label value s : String)
    (h : pySplit ':' s = [label, value]) :
    extract_added s = some (pyStrip value)
    ∧ extract_added s = spec_added_after_first_colon s := by
  unfold extract_added spec_added_after_first_colon
  rw [h]
  refine ⟨rfl, ?_⟩
  simp only [String.intercalate]
  rfl

theorem claim_C6_amended_witness :
    extract_added "Added to Netflix: May 5, 2020" = some (pyStrip " May 5, 2020")
    ∧ extract_added "Added to Netflix: May 5, 2020" =
        spec_added_after_first_colon "Added to Netflix: May 5, 2020" :=
  claim_C6_amended "Added to Netflix" " May 5, 2020"
    "Added to Netflix: May 5, 2020" rfl

/-- C7 counterexample: the harvester does not return one mapping entry per
matched element — two matched elements with the same visible text collapse
into a single entry (the later one's url), so a page of two elements yields a
one-entry mapping. -/
theorem claim_C7_counterexample :
    (get_flixable_movie_urls [⟨"A", "/1"⟩, ⟨"A", "/2"⟩]).length = 1
    ∧ ([⟨"A", "/1"⟩, ⟨"A", "/2"⟩] : List TitleElem).length = 2
    ∧ get_flixable_movie_urls [⟨"A", "/1"⟩, ⟨"A", "/2"⟩]
        = [("A", "http://www.flixable.com/2")] :=
  ⟨rfl, rfl, rfl⟩

/-- C7 amended: a page with zero matching elements yields the empty mapping,
not an error; and when the matched elements' visible texts are pairwise
distinct the harvester returns exactly one entry per matched element, in
order, keyed by the element's text with value the base url concatenated with
its href (elements sharing a text collapse into one entry, cf. C10). -/
theorem claim_C7_amended (movie_titles : List TitleElem)
    (h : (movie_titles.map (fun e => e.text)).Nodup) :
    get_flixable_movie_urls [] = ([] : Dict)
    ∧ get_flixable_movie_urls movie_titles =
        movie_titles.map (fun e => (e.text, FLIXABLE_REQUEST_URL ++ e.href)) := by
  refine ⟨rfl, ?_⟩
  unfold get_flixable_movie_urls
  rw [foldl_dictInsert_fresh movie_titles [] (fun e _ => rfl) h]
  rfl

theorem claim_C7_amended_witness :
    get_flixable_movie_urls [] = ([] : Dict)
    ∧ get_flixable_movie_urls [⟨"A", "/1"⟩, ⟨"B", "/2"⟩] =
        ([⟨"A", "/1"⟩, ⟨"B", "/2"⟩] : List TitleElem).map
          (fun e => (e.text, FLIXABLE_REQUEST_URL ++ e.href)) :=
  claim_C7_amended [⟨"A", "/1"⟩, ⟨"B", "/2"⟩] (by decide)

/-- C8: the scrape cell calls the harvester exactly once per page in
`1..N_PAGES` (`N_PAGES = 30`) in ascending order — the recorded call
sequence is the page range with the fixed filter parameters and only `page`
varying — and it accumulates every page's mapping values into one flat list
(pages in order, each page's urls in mapping order) before `get_info` runs
over that completed list. -/
theorem claim_C8 (site : FlixableParams → List TitleElem) (env : Env) :
    (scrape site).calls =
      (List.range' 1 N_PAGES).map (fun p => { initParams with page := p })
    ∧ (scrape site).calls.map (fun ps => ps.page) =
        [1, 2, 3, 4, 5, 6, 7, 8, 9, 10, 11, 12, 13, 14, 15, 16, 17, 18, 19,
         20, 21, 22, 23, 24, 25, 26, 27, 28, 29, 30]
    ∧ (scrape site).movie_urls = (List.range' 1 N_PAGES).flatMap
        (fun p =>
          (get_flixable_movie_urls (site { initParams with page := p })).map
            Prod.snd)
    ∧ scrapeCell site env = get_info env ((List.range' 1 N_PAGES).flatMap
        (fun p =>
          (get_flixable_movie_urls (site { initParams with page := p })).map
            Prod.snd)) := by
  have hs : scrape site =
      ⟨(List.range' 1 N_PAGES).map (fun p => { initParams with page := p }),
       (List.range' 1 N_PAGES).flatMap (fun p =>
         (get_flixable_movie_urls (site { initParams with page := p })).map
           Prod.snd)⟩ := by
    unfold scrape
    rw [scrape_foldl]
    simp
  refine ⟨by rw [hs], ?_, by rw [hs], ?_⟩
  · rw [hs]
    rfl
  · unfold scrapeCell
    rw [hs]

/-- C9: when the fetch succeeds and all four selectors match but the
added-to-netflix text block contains no colon, `split(':')[1]` raises an
`IndexError` that the `except AttributeError` handler does not catch: no
degraded record is emitted and the whole `get_info` call aborts. -/
theorem claim_C9 (env : Env) (url : String) (rest : List String)
    (t y m a : String)
    (hok : (env.detail url).ok = true)
    (ht : (env.detail url).titleElem = some t)
    (hy : (env.detail url).yearElem = some y)
    (hm : (env.detail url).mpaaElem = some m)
    (ha : (env.detail url).addedElem = some a)
    (hcolon : ':' ∉ a.toList) :
    processUrl env url = Except.error PyError.indexError
    ∧ get_info env (url :: rest) = Except.error PyError.indexError := by
  have hadd : extract_added a = none := extract_added_no_sep a hcolon
  have hp : processUrl env url = Except.error PyError.indexError := by
    simp [processUrl, hok, ht, hy, hm, ha, hadd]
  exact ⟨hp, by simp [get_info, hp]⟩

theorem claim_C9_witness :
    processUrl sampleEnv "nocolon" = Except.error PyError.indexError
    ∧ get_info sampleEnv ["nocolon", "ok"] = Except.error PyError.indexError :=
  claim_C9 sampleEnv "nocolon" ["ok"] "T" "2020" "PG" "Added to Netflix"
    rfl rfl rfl rfl rfl (by decide)

/-- C10: two matched elements with the same visible text on one page collapse
to a single entry holding the later element's url (last write wins in that
page's dict); the same text appearing on two different pages contributes both
urls to the accumulated list, because each page starts a fresh dict. -/
theorem claim_C10 (e1 e2 : TitleElem) (h : e1.text = e2.text) :
    get_flixable_movie_urls [e1, e2] =
      [(e2.text, FLIXABLE_REQUEST_URL ++ e2.href)]
    ∧ ∀ site : FlixableParams → List TitleElem,
        (∀ ps, site ps = if ps.page = 1 then [e1]
          else if ps.page = 2 then [e2] else []) →
        (scrape site).movie_urls =
          [FLIXABLE_REQUEST_URL ++ e1.href, FLIXABLE_REQUEST_URL ++ e2.href] := by
  constructor
  · have hb : (e1.text == e2.text) = true := beq_iff_eq.mpr h
    simp [get_flixable_movie_urls, dictInsert, hb]
    exact fun hne => absurd h hne
  · intro site hsite
    have hs : (scrape site).movie_urls = (List.range' 1 N_PAGES).flatMap
        (fun p =>
          (get_flixable_movie_urls (site { initParams with page := p })).map
            Prod.snd) := by
      unfold scrape
      rw [scrape_foldl]
      simp
    rw [hs, show List.range' 1 N_PAGES =
      [1, 2, 3, 4, 5, 6, 7, 8, 9, 10, 11, 12, 13, 14, 15, 16, 17, 18, 19, 20,
       21, 22, 23, 24, 25, 26, 27, 28, 29, 30] from rfl]
    simp [hsite, get_flixable_movie_urls, dictInsert]

theorem claim_C10_witness :
    get_flixable_movie_urls [⟨"A", "/1"⟩, ⟨"A", "/2"⟩] =
      [("A", FLIXABLE_REQUEST_URL ++ "/2")]
    ∧ (scrape (fun ps => if ps.page = 1 then [⟨"A", "/1"⟩]
        else if ps.page = 2 then [⟨"A", "/2"⟩] else [])).movie_urls =
        [FLIXABLE_REQUEST_URL ++ "/1", FLIXABLE_REQUEST_URL ++ "/2"] :=
  ⟨(claim_C10 ⟨"A", "/1"⟩ ⟨"A", "/2"⟩ rfl).1,
   (claim_C10 ⟨"A", "/1"⟩ ⟨"A", "/2"⟩ rfl).2 _ (fun _ => rfl)⟩

end Flixable
